import Mathlib

/-!
Shallow embedding of the speculative trade-precomputation cache and execution
pipeline of the SolSniper browser extension (src/background/index.ts,
src/background/jito.ts, and the Jupiter client).

The embedding models the background module's state (the `preloadCache`
variable, the refresh timer) explicitly, and models the external network
collaborators (Jupiter quote/swap endpoints, Helius balance/send/status
endpoints, the wallet signer, the Jito bundle API) as outcome streams indexed
by invocation count: the k-th call of a given kind during one operation
consumes the stream's value at index k.  Amounts, percentages and UI balances
(JavaScript numbers in the source) are modelled as rationals; raw balances
(integer smallest units) as naturals; timestamps as naturals (milliseconds).
Thrown JavaScript errors are modelled with `Except String`.
-/

namespace SolSniper

/-- Milliseconds timestamp, as produced by `Date.now()`. -/
abbrev Timestamp := Nat

/-- An opaque unsigned (or signed) venue transaction payload (`swapTx`). -/
abbrev Artifact := String

/-- `const CACHE_TTL = 10000` (index.ts): cache exists for 10s. -/
def CACHE_TTL : Nat := 10000

/-- `const CACHE_FRESH_THRESHOLD = 5000` (index.ts): usable without rebuild for 5s. -/
def CACHE_FRESH_THRESHOLD : Nat := 5000

/-- `const CACHE_REFRESH_INTERVAL = 8000` (index.ts): refresh timer period. -/
def CACHE_REFRESH_INTERVAL : Nat := 8000

/-- The `PreloadCache` record of index.ts: per tracked token (`ca`), the
precomputed buy transactions keyed by SOL amount, the precomputed sell
transactions keyed by percentage, the decimals and UI-balance snapshot used to
build them, and the creation timestamp. -/
structure PreloadCache where
  ca : String
  buyTrades : List (ℚ × Artifact)
  sellTrades : List (ℚ × Artifact)
  tokenDecimals : Nat
  tokenBalance : ℚ
  timestamp : Timestamp
deriving DecidableEq, Repr

/-- `Map.get`-style first-match lookup for the trade maps. -/
def mapGet (l : List (ℚ × Artifact)) (k : ℚ) : Option Artifact :=
  match l with
  | [] => none
  | (a, art) :: rest => if k = a then some art else mapGet rest k

/-- `Map.has` for the trade maps. -/
def mapHas (l : List (ℚ × Artifact)) (k : ℚ) : Bool :=
  (mapGet l k).isSome

/-- `isCacheValid(ca)` (index.ts): the cache exists, its token matches, and its
age is below `CACHE_TTL`.  `Date.now()` is the `now` parameter. -/
def isCacheValid (cache : Option PreloadCache) (ca : String) (now : Timestamp) : Bool :=
  match cache with
  | none => false
  | some c => c.ca = ca && now - c.timestamp < CACHE_TTL

/-- The cached-trade decision taken by `executeBuy` (index.ts lines 543-557):
with caching enabled, a valid cache holding the requested amount, and age
strictly below `CACHE_FRESH_THRESHOLD`, the cached `swapTx` is used; otherwise
the pipeline falls through to a synchronous rebuild. -/
def buyCacheDecision (cacheEnabled : Bool) (cache : Option PreloadCache) (ca : String)
    (amount : ℚ) (now : Timestamp) : Option Artifact :=
  if cacheEnabled && isCacheValid cache ca now then
    match cache with
    | none => none
    | some c =>
      match mapGet c.buyTrades amount with
      | none => none
      | some art =>
        if now - c.timestamp < CACHE_FRESH_THRESHOLD then some art else none
  else none

/-- The cached-trade decision taken by `executeSell` (index.ts lines 744-762):
as for buys, but additionally the live UI balance must not have drifted by 5%
or more from the cached `tokenBalance` snapshot
(`balanceChangePercent = cachedBalance > 0 ? |live - cached| / cached * 100 : 0`). -/
def sellCacheDecision (cacheEnabled : Bool) (cache : Option PreloadCache) (ca : String)
    (percent : ℚ) (now : Timestamp) (liveBalance : ℚ) : Option Artifact :=
  if cacheEnabled && isCacheValid cache ca now then
    match cache with
    | none => none
    | some c =>
      match mapGet c.sellTrades percent with
      | none => none
      | some art =>
        let cacheAge := now - c.timestamp
        let balanceDiff := |liveBalance - c.tokenBalance|
        let balanceChangePercent : ℚ :=
          if 0 < c.tokenBalance then balanceDiff / c.tokenBalance * 100 else 0
        if cacheAge < CACHE_FRESH_THRESHOLD ∧ balanceChangePercent < 5 then some art
        else none
  else none

/-- Counters of network/signer invocations made during one `executeBuy` or
`executeSell` run, one field per call site kind: Helius UI-balance reads,
Jupiter decimals reads, Helius raw-balance reads, Jupiter quote requests,
Jupiter swap-build requests, wallet signatures, and Helius `sendTransaction`
submissions. -/
structure Calls where
  balance : Nat := 0
  decimals : Nat := 0
  rawBalance : Nat := 0
  quote : Nat := 0
  swap : Nat := 0
  sign : Nat := 0
  send : Nat := 0
deriving DecidableEq, Repr

/-- Pointwise sum of call counters. -/
def Calls.add (a b : Calls) : Calls :=
  ⟨a.balance + b.balance, a.decimals + b.decimals, a.rawBalance + b.rawBalance,
   a.quote + b.quote, a.swap + b.swap, a.sign + b.sign, a.send + b.send⟩

instance : Add Calls := ⟨Calls.add⟩

deriving instance DecidableEq for Except

/-- Outcome of a whole `executeBuy`/`executeSell` run: the returned signature
or thrown error, whether the cached artifact was selected (`useCache`), and
how many collaborator calls of each kind were made. -/
structure RunResult where
  result : Except String String
  usedCache : Bool
  calls : Calls
deriving DecidableEq, Repr

/-- External-world behaviour visible to `executeBuy`: the k-th invocation of
each collaborator call site either succeeds with an opaque value or throws. -/
structure BuyWorld where
  quote : Nat → Except String String
  swap : Nat → Except String Artifact
  sign : Nat → Artifact → Except String Artifact
  send : Nat → Artifact → Except String String

/-- The non-cache build path of `executeBuy` (`getBuyQuote` then
`getSwapTransaction`), used both for the initial build and for
rebuild-and-retry; `k` is the rebuild index (how many builds ran before). -/
def buildBuy (w : BuyWorld) (k : Nat) : Except String Artifact × Calls :=
  match w.quote k with
  | .error e => (.error e, { quote := 1 })
  | .ok _ =>
    match w.swap k with
    | .error e => (.error e, { quote := 1, swap := 1 })
    | .ok a => (.ok a, { quote := 1, swap := 1 })

/-- The submission stage of `executeBuy` (index.ts lines 614-656): send the
signed transaction; on failure, if the artifact in use came from the cache,
rebuild once, re-sign and re-send, otherwise rethrow.  `sendIdx`/`signIdx`/`k`
are the next invocation indices for the respective call sites. -/
def buySendStage (w : BuyWorld) (sendIdx signIdx k : Nat) (signedTx : Artifact)
    (useCache : Bool) : Except String String × Calls :=
  match w.send sendIdx signedTx with
  | .ok sig => (.ok sig, { send := 1 })
  | .error e =>
    if useCache then
      match buildBuy w k with
      | (.error e2, cs) => (.error e2, { send := 1 } + cs)
      | (.ok a2, cs) =>
        match w.sign signIdx a2 with
        | .error e3 => (.error e3, { send := 1 } + cs + { sign := 1 })
        | .ok s2 =>
          match w.send (sendIdx + 1) s2 with
          | .ok sig => (.ok sig, { send := 1 } + cs + { sign := 1, send := 1 })
          | .error e4 => (.error e4, { send := 1 } + cs + { sign := 1, send := 1 })
    else (.error e, { send := 1 })

/-- The signing stage of `executeBuy` given a cache-sourced artifact
(index.ts lines 576-612): sign; on failure rebuild once, re-sign (a second
signing failure is fatal), then proceed to the submission stage. -/
def buySignStageCached (w : BuyWorld) (art : Artifact) : Except String String × Calls :=
  match w.sign 0 art with
  | .ok s => (let (r, cs) := buySendStage w 0 1 0 s true; (r, { sign := 1 } + cs))
  | .error _ =>
    match buildBuy w 0 with
    | (.error e2, cs) => (.error e2, { sign := 1 } + cs)
    | (.ok a1, cs) =>
      match w.sign 1 a1 with
      | .error e3 => (.error e3, { sign := 1 } + cs + { sign := 1 })
      | .ok s =>
        let (r, cs2) := buySendStage w 0 2 1 s true
        (r, { sign := 1 } + cs + { sign := 1 } + cs2)

/-- `executeBuy(ca, amount)` (index.ts lines 512-684).  `ready` is whether the
Helius/Jupiter clients are available after the re-initialization attempt;
`cacheEnabled` is `config.enableCache !== false`; `now` is `Date.now()` at the
cache check. -/
def executeBuy (ready cacheEnabled : Bool) (cache : Option PreloadCache) (ca : String)
    (amount : ℚ) (now : Timestamp) (w : BuyWorld) : RunResult :=
  if !ready then ⟨.error "Wallet not configured", false, {}⟩
  else
    match buyCacheDecision cacheEnabled cache ca amount now with
    | some art =>
      let (r, cs) := buySignStageCached w art
      ⟨r, true, cs⟩
    | none =>
      match buildBuy w 0 with
      | (.error e, cs) => ⟨.error e, false, cs⟩
      | (.ok a, cs) =>
        match w.sign 0 a with
        | .error e => ⟨.error e, false, cs + { sign := 1 }⟩
        | .ok s =>
          let (r, cs2) := buySendStage w 0 1 0 s false
          ⟨r, false, cs + { sign := 1 } + cs2⟩

/-- External-world behaviour visible to `executeSell`: additionally the Helius
UI-balance reads, Jupiter decimals reads and Helius raw-balance reads. -/
structure SellWorld where
  balance : Nat → Except String ℚ
  decimals : Nat → Except String Nat
  rawBalance : Nat → Except String Nat
  quote : Nat → Except String String
  swap : Nat → Except String Artifact
  sign : Nat → Artifact → Except String Artifact
  send : Nat → Artifact → Except String String

/-- `Math.floor((rawTokenBalance * percent) / 100)` — the raw sell amount
computed by `executeSell` and `preloadSellTrades`. -/
def rawSellAmount (rawTokenBalance : Nat) (percent : ℚ) : ℤ :=
  ⌊(rawTokenBalance : ℚ) * percent / 100⌋

/-- The rebuild path used inside the sign/send retry catches of `executeSell`
(index.ts lines 845-873 and 894-927): re-fetch UI balance and decimals in
parallel, re-fetch the raw balance, recompute the sell amount (without
re-checking it for zero), then fetch a fresh quote and swap transaction.
`j` is the retry index (0 on the first rebuild, 1 on the second). -/
def sellRebuild (w : SellWorld) (percent : ℚ) (j : Nat) : Except String Artifact × Calls :=
  match w.balance (j + 1), w.decimals (j + 1) with
  | .error e, _ => (.error e, { balance := 1, decimals := 1 })
  | .ok _, .error e => (.error e, { balance := 1, decimals := 1 })
  | .ok _, .ok _ =>
    match w.rawBalance (j + 1) with
    | .error e => (.error e, { balance := 1, decimals := 1, rawBalance := 1 })
    | .ok raw =>
      let _amount := rawSellAmount raw percent
      match w.quote j with
      | .error e => (.error e, { balance := 1, decimals := 1, rawBalance := 1, quote := 1 })
      | .ok _ =>
        match w.swap j with
        | .error e =>
          (.error e, { balance := 1, decimals := 1, rawBalance := 1, quote := 1, swap := 1 })
        | .ok a =>
          (.ok a, { balance := 1, decimals := 1, rawBalance := 1, quote := 1, swap := 1 })

/-- The submission stage of `executeSell` (index.ts lines 880-932), with the
same single-rebuild-on-cache policy as `buySendStage`. -/
def sellSendStage (w : SellWorld) (percent : ℚ) (sendIdx signIdx j : Nat)
    (signedTx : Artifact) (useCache : Bool) : Except String String × Calls :=
  match w.send sendIdx signedTx with
  | .ok sig => (.ok sig, { send := 1 })
  | .error e =>
    if useCache then
      match sellRebuild w percent j with
      | (.error e2, cs) => (.error e2, { send := 1 } + cs)
      | (.ok a2, cs) =>
        match w.sign signIdx a2 with
        | .error e3 => (.error e3, { send := 1 } + cs + { sign := 1 })
        | .ok s2 =>
          match w.send (sendIdx + 1) s2 with
          | .ok sig => (.ok sig, { send := 1 } + cs + { sign := 1, send := 1 })
          | .error e4 => (.error e4, { send := 1 } + cs + { sign := 1, send := 1 })
    else (.error e, { send := 1 })

/-- The signing stage of `executeSell` for a cache-sourced artifact
(index.ts lines 830-878). -/
def sellSignStageCached (w : SellWorld) (percent : ℚ) (art : Artifact) :
    Except String String × Calls :=
  match w.sign 0 art with
  | .ok s => (let (r, cs) := sellSendStage w percent 0 1 0 s true; (r, { sign := 1 } + cs))
  | .error _ =>
    match sellRebuild w percent 0 with
    | (.error e2, cs) => (.error e2, { sign := 1 } + cs)
    | (.ok a1, cs) =>
      match w.sign 1 a1 with
      | .error e3 => (.error e3, { sign := 1 } + cs + { sign := 1 })
      | .ok s =>
        let (r, cs2) := sellSendStage w percent 0 2 1 s true
        (r, { sign := 1 } + cs + { sign := 1 } + cs2)

/-- `executeSell(ca, percent)` (index.ts lines 687-960): always fetch the live
UI balance and decimals first (failing with `No token balance` when the UI
balance is zero), then the live raw balance; then either use a fresh,
drift-checked cached transaction or recompute the sell amount from the current
raw balance (floor division) and build a fresh transaction; then sign and
submit with the single-rebuild-on-cache retry at each stage. -/
def executeSell (ready cacheEnabled : Bool) (cache : Option PreloadCache) (ca : String)
    (percent : ℚ) (now : Timestamp) (w : SellWorld) : RunResult :=
  if !ready then ⟨.error "Wallet not configured", false, {}⟩
  else
    match w.balance 0, w.decimals 0 with
    | .error e, _ => ⟨.error e, false, { balance := 1, decimals := 1 }⟩
    | .ok _, .error e => ⟨.error e, false, { balance := 1, decimals := 1 }⟩
    | .ok tokenBalance, .ok _ =>
      if tokenBalance = 0 then
        ⟨.error "No token balance", false, { balance := 1, decimals := 1 }⟩
      else
        match w.rawBalance 0 with
        | .error e => ⟨.error e, false, { balance := 1, decimals := 1, rawBalance := 1 }⟩
        | .ok raw =>
          let base : Calls := { balance := 1, decimals := 1, rawBalance := 1 }
          match sellCacheDecision cacheEnabled cache ca percent now tokenBalance with
          | some art =>
            let (r, cs) := sellSignStageCached w percent art
            ⟨r, true, base + cs⟩
          | none =>
            if raw = 0 then ⟨.error "No token balance", false, base⟩
            else if rawSellAmount raw percent = 0 then
              ⟨.error "卖出数量太小，无法交易", false, base⟩
            else
              match w.quote 0 with
              | .error e => ⟨.error e, false, base + { quote := 1 }⟩
              | .ok _ =>
                match w.swap 0 with
                | .error e => ⟨.error e, false, base + { quote := 1, swap := 1 }⟩
                | .ok a =>
                  match w.sign 0 a with
                  | .error e =>
                    ⟨.error e, false, base + { quote := 1, swap := 1, sign := 1 }⟩
                  | .ok s =>
                    let (r, cs2) := sellSendStage w percent 0 1 0 s false
                    ⟨r, false, base + { quote := 1, swap := 1, sign := 1 } + cs2⟩

/-- External-world behaviour visible to `preloadTrades` (index.ts lines
406-500) and the Jupiter preload helpers.  Per-preset build outcomes are keyed
by the preset value; `buyArt`/`sellArt` give the built `swapTx` payloads.
`decimals` is the value returned by `JupiterClient.getTokenDecimals`, which
wraps its fetch in a catch-all `try` and always returns a number (defaulting
to 9), so it is modelled as an infallible value, not a fallible call. -/
structure PreloadWorld where
  ready : Bool
  enableCache : Bool
  buyPresets : List ℚ
  sellPresets : List ℚ
  decimals : Nat
  balance : Except String ℚ
  rawBalance : Except String Nat
  buyQuoteOk : ℚ → Bool
  buySwapOk : ℚ → Bool
  sellQuoteOk : ℚ → Bool
  sellSwapOk : ℚ → Bool
  buyArt : ℚ → Artifact
  sellArt : ℚ → Artifact
  now : Timestamp

/-- `JupiterClient.preloadBuyTrades`: one quote and one swap build per preset
amount, every per-amount failure caught and dropped (`.catch(() => null)`), so
the resulting map holds exactly the presets whose quote and swap both
succeeded. -/
def preloadBuyTrades (w : PreloadWorld) : List (ℚ × Artifact) :=
  w.buyPresets.filterMap fun a =>
    if w.buyQuoteOk a && w.buySwapOk a then some (a, w.buyArt a) else none

/-- `JupiterClient.preloadSellTrades`: presets whose computed raw sell amount
is zero are silently skipped; the rest build independently with per-entry
failures dropped. -/
def preloadSellTrades (w : PreloadWorld) (raw : Nat) : List (ℚ × Artifact) :=
  (w.sellPresets.filter fun p => 0 < rawSellAmount raw p).filterMap fun p =>
    if w.sellQuoteOk p && w.sellSwapOk p then some (p, w.sellArt p) else none

/-- `preloadTrades(ca)` (index.ts lines 406-500), returning the thrown error or
unit together with the `preloadCache` variable after the call.  Clients
unavailable after re-initialization throws `Not ready` — the only throw the
function has, since `getTokenDecimals` never rejects, `preloadBuyTrades`
catches every per-entry failure, the UI-balance read is caught and treated as
balance `0`, and the sell stage's raw-balance read failure is caught, keeping
the sell map empty.  With caching disabled it returns early leaving the cache
untouched; the sell side runs only for a nonzero balance; on success the cache
is replaced wholesale.  Errors leave the previous cache in place. -/
def preloadTrades (w : PreloadWorld) (cache0 : Option PreloadCache) (ca : String) :
    Except String Unit × Option PreloadCache :=
  if !w.ready then (.error "Not ready", cache0)
  else if !w.enableCache then (.ok (), cache0)
  else
    let tokenBalance : ℚ := match w.balance with | .error _ => 0 | .ok b => b
    let buyTrades := preloadBuyTrades w
    let sellTrades :=
      if 0 < tokenBalance then
        match w.rawBalance with
        | .error _ => []
        | .ok raw => preloadSellTrades w raw
      else []
    (.ok (), some ⟨ca, buyTrades, sellTrades, w.decimals, tokenBalance, w.now⟩)

/-- What one tick of the `setupCacheRefresh` interval decides to do. -/
inductive TickAction where
  | rebuild
  | cancel
deriving DecidableEq, Repr

/-- The decision of one refresh-timer tick for token `tokenA` (index.ts lines
363-391): rebuild only when a cache exists, its token matches, and its age is
still below `CACHE_TTL`; otherwise clear the interval. -/
def refreshTickAction (tokenA : String) (cache : Option PreloadCache) (now : Timestamp) :
    TickAction :=
  match cache with
  | some c =>
    if c.ca = tokenA then
      if now - c.timestamp < CACHE_TTL then .rebuild else .cancel
    else .cancel
  | none => .cancel

/-- The cache state after one refresh tick: a cancelling tick leaves the cache
alone, and a rebuilding tick runs `preloadTrades` with its error swallowed
(the `catch` at index.ts lines 372-375), so a failed refresh also leaves the
existing cache unchanged. -/
def refreshTickRun (tokenA : String) (cache : Option PreloadCache) (now : Timestamp)
    (w : PreloadWorld) : Option PreloadCache :=
  match refreshTickAction tokenA cache now with
  | .cancel => cache
  | .rebuild => (preloadTrades w cache tokenA).2

/-- Outcome of one attempt of `JitoClient.sendBundle` (jito.ts lines 33-132):
success with a bundle id, a rate-limit response (HTTP 429 or JSON-RPC error
code -32097 / message containing `rate limit`), or any other failure
(non-429 HTTP error, other JSON-RPC error, or a thrown exception). -/
inductive JitoOutcome where
  | ok (bundleId : String)
  | rateLimited
  | fail (msg : String)
deriving DecidableEq, Repr

/-- The input validation at the top of each `sendBundle` attempt: an empty
bundle or one of more than 5 transactions throws before the network call. -/
def jitoEffOutcome (n : Nat) (f : Nat → JitoOutcome) (i : Nat) : JitoOutcome :=
  if n = 0 then .fail "Bundle 不能为空"
  else if 5 < n then .fail "Bundle 最多只能包含 5 个交易"
  else f i

/-- `min(1000 * 2^(attempt-1), 5000)` — the backoff delay applied at the start
of every retried attempt of `sendBundle`, whatever caused the retry. -/
def jitoRetryDelay (attempt : Nat) : Nat :=
  min (1000 * 2 ^ (attempt - 1)) 5000

/-- The retry loop of `sendBundle` (`for attempt in 0..<retries`, structurally
recursing on the remaining iterations): result is `.ok (some id)` on success,
`.ok none` (the JavaScript `null` sentinel allowing the caller to degrade)
when the final attempt is rate-limited, and `.error` when the final attempt
fails for another reason; falling out of the loop also returns the sentinel
(jito.ts line 136).  The second component counts attempts made. -/
def sendBundleLoop (eff : Nat → JitoOutcome) (retries attempt fuel : Nat) :
    Except String (Option String) × Nat :=
  match fuel with
  | 0 => (.ok none, attempt)
  | fuel' + 1 =>
    if attempt < retries then
      match eff attempt with
      | .ok id => (.ok (some id), attempt + 1)
      | .rateLimited =>
        if attempt < retries - 1 then sendBundleLoop eff retries (attempt + 1) fuel'
        else (.ok none, attempt + 1)
      | .fail m =>
        if attempt = retries - 1 then (.error m, attempt + 1)
        else sendBundleLoop eff retries (attempt + 1) fuel'
    else (.ok none, attempt)

/-- `JitoClient.sendBundle(signedTransactions, retries = 3)` over `n` signed
transactions with per-attempt outcomes `f`. -/
def sendBundle (n : Nat) (f : Nat → JitoOutcome) (retries : Nat) :
    Except String (Option String) × Nat :=
  sendBundleLoop (jitoEffOutcome n f) retries 0 retries

/-- The terminal status strings of a Jito bundle. -/
inductive BStatus where
  | pending
  | landed
  | failed
  | timeout
deriving DecidableEq, Repr

/-- The `BundleStatus` record; `uuid` is an `Option` because
`sendAndConfirmBundle` can pass the `null` sentinel through as the bundle id
(jito.ts lines 193-197 build a timeout status from that value). -/
structure BundleStatusR where
  uuid : Option String
  status : BStatus
  error : Option String
deriving DecidableEq, Repr

/-- One iteration's server response inside `pollBundleStatus`: `none` models a
non-ok HTTP response, a JSON-RPC error, or a thrown exception (all of which
just wait and poll again). -/
abbrev PollResp := Option BundleStatusR

/-- The polling loop of `JitoClient.pollBundleStatus` with `fuel` remaining
iterations (the `Date.now() - startTime < timeout` guard): a `landed`,
`failed` or `timeout` status is returned as is, `pending` and failed queries
poll again, and exhausting the deadline returns a synthesized timeout status
carrying the (possibly null) bundle id. -/
def pollAux (bundleId : Option String) (resp : Nat → PollResp) (i fuel : Nat) :
    BundleStatusR :=
  match fuel with
  | 0 => ⟨bundleId, .timeout, some "轮询超时"⟩
  | fuel' + 1 =>
    match resp i with
    | none => pollAux bundleId resp (i + 1) fuel'
    | some s =>
      match s.status with
      | .pending => pollAux bundleId resp (i + 1) fuel'
      | _ => s

/-- `JitoClient.pollBundleStatus(bundleId, timeout)`. -/
def pollBundleStatus (bundleId : Option String) (resp : Nat → PollResp) (fuel : Nat) :
    BundleStatusR :=
  pollAux bundleId resp 0 fuel

/-- `JitoClient.sendAndConfirmBundle` (jito.ts lines 201-207): send the bundle
with the default 3 retries and poll whatever `sendBundle` returned — including
the `null` sentinel — as the bundle id.  There is no fallback submission
path. -/
def sendAndConfirmBundle (n : Nat) (f : Nat → JitoOutcome) (resp : Nat → PollResp)
    (fuel : Nat) : Except String BundleStatusR :=
  match (sendBundle n f 3).1 with
  | .error e => .error e
  | .ok bundleId => .ok (pollBundleStatus bundleId resp fuel)

/-- One iteration's observation inside `HeliusClient.confirmTransaction`
(index.ts lines 1639-1699): a fetch/parse exception (`netErr`, leaves
`lastStatus` untouched), a response with no status for the signature
(`noStatus`, sets `lastStatus` to null), a status that is neither errored nor
confirmed (`pendingOk`), a confirmed/finalized status (`confirmedOk`), or a
status carrying an on-chain execution error (`execErr`). -/
inductive ConfResp where
  | netErr
  | noStatus
  | pendingOk
  | confirmedOk
  | execErr (e : String)
deriving DecidableEq, Repr

/-- The `{ confirmed, error? }` result of `confirmTransaction`. -/
structure ConfirmResult where
  confirmed : Bool
  error : Option String
deriving DecidableEq, Repr

/-- The message built from an observed on-chain execution error
(`链上执行失败: ${errMsg}`), returned immediately. -/
def execFailMsg (e : String) : String := "链上执行失败: " ++ e

/-- The timeout message when the last parsed status existed without an error
(likely still pending). -/
def timeoutPendingMsg : String := "交易确认超时，请稍后查看钱包"

/-- The timeout message when no status was ever observed (likely expired or
dropped). -/
def timeoutDroppedMsg : String := "交易可能已过期或被丢弃"

/-- The polling loop of `confirmTransaction` with `fuel` remaining iterations
(the `Date.now() - start < timeout` guard); `lastHasStatus` tracks whether the
most recently parsed response held a status (`lastStatus && !lastStatus.err`
at timeout — an errored status would already have returned).  The second
component counts iterations performed. -/
def confirmLoop (resp : Nat → ConfResp) (i fuel : Nat) (lastHasStatus : Bool) :
    ConfirmResult × Nat :=
  match fuel with
  | 0 =>
    (⟨false, some (if lastHasStatus then timeoutPendingMsg else timeoutDroppedMsg)⟩, i)
  | fuel' + 1 =>
    match resp i with
    | .netErr => confirmLoop resp (i + 1) fuel' lastHasStatus
    | .noStatus => confirmLoop resp (i + 1) fuel' false
    | .pendingOk => confirmLoop resp (i + 1) fuel' true
    | .confirmedOk => (⟨true, none⟩, i + 1)
    | .execErr e => (⟨false, some (execFailMsg e)⟩, i + 1)

/-- `HeliusClient.confirmTransaction(signature, timeout)`: poll the signature
status every 500ms until confirmed, on-chain-failed, or out of time. -/
def confirmTransaction (resp : Nat → ConfResp) (fuel : Nat) : ConfirmResult × Nat :=
  confirmLoop resp 0 fuel false

/-! ### Helper lemmas about call counters -/

@[simp] theorem Calls.add_balance (a b : Calls) : (a + b).balance = a.balance + b.balance := rfl

@[simp] theorem Calls.add_decimals (a b : Calls) : (a + b).decimals = a.decimals + b.decimals := rfl

@[simp] theorem Calls.add_rawBalance (a b : Calls) :
    (a + b).rawBalance = a.rawBalance + b.rawBalance := rfl

@[simp] theorem Calls.add_quote (a b : Calls) : (a + b).quote = a.quote + b.quote := rfl

@[simp] theorem Calls.add_swap (a b : Calls) : (a + b).swap = a.swap + b.swap := rfl

@[simp] theorem Calls.add_sign (a b : Calls) : (a + b).sign = a.sign + b.sign := rfl

@[simp] theorem Calls.add_send (a b : Calls) : (a + b).send = a.send + b.send := rfl

theorem buildBuy_calls (w : BuyWorld) (k : Nat) :
    (buildBuy w k).2 = ({ quote := 1 } : Calls) ∨
    (buildBuy w k).2 = ({ quote := 1, swap := 1 } : Calls) := by
  unfold buildBuy
  rcases w.quote k with e | q
  · exact .inl rfl
  · rcases w.swap k with e | a
    · exact .inr rfl
    · exact .inr rfl

theorem buySendStage_calls (w : BuyWorld) (a b k : Nat) (s : Artifact) (u : Bool) :
    (buySendStage w a b k s u).2.quote ≤ (if u then 1 else 0) ∧
    (buySendStage w a b k s u).2.swap ≤ (if u then 1 else 0) ∧
    (buySendStage w a b k s u).2.sign ≤ (if u then 1 else 0) ∧
    (buySendStage w a b k s u).2.send ≤ 2 ∧
    (2 ≤ (buySendStage w a b k s u).2.send → 1 ≤ (buySendStage w a b k s u).2.quote) ∧
    (1 ≤ (buySendStage w a b k s u).2.sign → 1 ≤ (buySendStage w a b k s u).2.quote) := by
  unfold buySendStage
  rcases h1 : w.send a s with e | sig
  · simp only [h1]
    rcases u with _ | _
    · simp
    · simp only [if_true]
      have hcs := buildBuy_calls w k
      rcases h2 : buildBuy w k with ⟨e2 | a2, cs⟩ <;> rw [h2] at hcs <;> simp only at hcs <;>
        simp only [h2]
      · rcases hcs with h | h <;> subst h <;> simp
      · rcases h3 : w.sign b a2 with e3 | s2 <;> simp only [h3]
        · rcases hcs with h | h <;> subst h <;> simp
        · rcases h4 : w.send (a + 1) s2 with e4 | sig <;> simp only [h4] <;>
            rcases hcs with h | h <;> subst h <;> simp
  · simp only [h1]
    rcases u with _ | _ <;> simp

theorem buySignStageCached_calls (w : BuyWorld) (art : Artifact) :
    (buySignStageCached w art).2.quote ≤ 2 ∧
    (buySignStageCached w art).2.swap ≤ 2 ∧
    (buySignStageCached w art).2.sign ≤ 3 ∧
    (buySignStageCached w art).2.send ≤ 2 ∧
    (2 ≤ (buySignStageCached w art).2.sign → 1 ≤ (buySignStageCached w art).2.quote) := by
  unfold buySignStageCached
  rcases h1 : w.sign 0 art with e | s
  · simp only [h1]
    have hcs := buildBuy_calls w 0
    rcases h2 : buildBuy w 0 with ⟨e2 | a1, cs⟩ <;> rw [h2] at hcs <;> simp only at hcs <;>
      simp only [h2]
    · rcases hcs with h | h <;> subst h <;> simp
    · rcases h3 : w.sign 1 a1 with e3 | s <;> simp only [h3]
      · rcases hcs with h | h <;> subst h <;> simp
      · have hs := buySendStage_calls w 0 2 1 s true
        rcases h4 : buySendStage w 0 2 1 s true with ⟨r, cs2⟩
        rw [h4] at hs
        simp only at hs
        obtain ⟨hq, hw, hg, hd, hi, hj⟩ := hs
        simp only [if_true] at hq hw hg
        simp only [h4]
        rcases hcs with h | h <;> subst h <;> simp <;> omega
  · simp only [h1]
    have hs := buySendStage_calls w 0 1 0 s true
    rcases h4 : buySendStage w 0 1 0 s true with ⟨r, cs2⟩
    rw [h4] at hs
    simp only at hs
    obtain ⟨hq, hw, hg, hd, hi, hj⟩ := hs
    simp only [if_true] at hq hw hg
    simp only [h4]
    simp
    refine ⟨by omega, by omega, by omega, by omega, ?_⟩
    intro h
    exact hj (by omega)

theorem sellRebuild_calls (w : SellWorld) (p : ℚ) (j : Nat) :
    (sellRebuild w p j).2.quote ≤ 1 ∧ (sellRebuild w p j).2.swap ≤ 1 ∧
    (sellRebuild w p j).2.sign = 0 ∧ (sellRebuild w p j).2.send = 0 ∧
    (∀ a, (sellRebuild w p j).1 = Except.ok a → (sellRebuild w p j).2.quote = 1) := by
  unfold sellRebuild
  rcases h1 : w.balance (j + 1) with e | b <;> rcases h2 : w.decimals (j + 1) with e2 | d <;>
    simp only [h1, h2]
  · simp
  · simp
  · simp
  · rcases h3 : w.rawBalance (j + 1) with e3 | raw <;> simp only [h3]
    · simp
    · rcases h4 : w.quote j with e4 | q <;> simp only [h4]
      · simp
      · rcases h5 : w.swap j with e5 | a <;> simp only [h5] <;> simp

theorem sellSendStage_calls (w : SellWorld) (p : ℚ) (a b k : Nat) (s : Artifact) (u : Bool) :
    (sellSendStage w p a b k s u).2.quote ≤ (if u then 1 else 0) ∧
    (sellSendStage w p a b k s u).2.swap ≤ (if u then 1 else 0) ∧
    (sellSendStage w p a b k s u).2.sign ≤ (if u then 1 else 0) ∧
    (sellSendStage w p a b k s u).2.send ≤ 2 ∧
    (2 ≤ (sellSendStage w p a b k s u).2.send → 1 ≤ (sellSendStage w p a b k s u).2.quote) ∧
    (1 ≤ (sellSendStage w p a b k s u).2.sign → 1 ≤ (sellSendStage w p a b k s u).2.quote) := by
  unfold sellSendStage
  rcases h1 : w.send a s with e | sig <;> simp only [h1]
  · rcases u with _ | _
    · simp
    · simp only [if_true]
      have hr := sellRebuild_calls w p k
      rcases h2 : sellRebuild w p k with ⟨e2 | a2, cs⟩ <;> rw [h2] at hr <;> simp only at hr <;>
        simp only [h2]
      · obtain ⟨hrq, hrw, hrs, hrd, _⟩ := hr
        simp
        omega
      · obtain ⟨hrq, hrw, hrs, hrd, hrok⟩ := hr
        have hq1 : cs.quote = 1 := hrok a2 rfl
        rcases h3 : w.sign b a2 with e3 | s2 <;> simp only [h3]
        · simp
          omega
        · rcases h4 : w.send (a + 1) s2 with e4 | sig <;> simp only [h4] <;> simp <;> omega
  · rcases u with _ | _ <;> simp

theorem sellSignStageCached_calls (w : SellWorld) (p : ℚ) (art : Artifact) :
    (sellSignStageCached w p art).2.quote ≤ 2 ∧
    (sellSignStageCached w p art).2.swap ≤ 2 ∧
    (sellSignStageCached w p art).2.sign ≤ 3 ∧
    (sellSignStageCached w p art).2.send ≤ 2 ∧
    (2 ≤ (sellSignStageCached w p art).2.sign → 1 ≤ (sellSignStageCached w p art).2.quote) := by
  unfold sellSignStageCached
  rcases h1 : w.sign 0 art with e | s
  · simp only [h1]
    have hr := sellRebuild_calls w p 0
    rcases h2 : sellRebuild w p 0 with ⟨e2 | a1, cs⟩ <;> rw [h2] at hr <;> simp only at hr <;>
      simp only [h2]
    · obtain ⟨hrq, hrw, hrs, hrd, _⟩ := hr
      simp
      omega
    · obtain ⟨hrq, hrw, hrs, hrd, hrok⟩ := hr
      have hq1 : cs.quote = 1 := hrok a1 rfl
      rcases h3 : w.sign 1 a1 with e3 | s <;> simp only [h3]
      · simp
        omega
      · have hs := sellSendStage_calls w p 0 2 1 s true
        rcases h4 : sellSendStage w p 0 2 1 s true with ⟨r, cs2⟩
        rw [h4] at hs
        simp only at hs
        obtain ⟨hsq, hsw, hss, hsd, hsi, hsj⟩ := hs
        simp only [if_true] at hsq hsw hss
        simp only [h4]
        simp
        omega
  · simp only [h1]
    have hs := sellSendStage_calls w p 0 1 0 s true
    rcases h4 : sellSendStage w p 0 1 0 s true with ⟨r, cs2⟩
    rw [h4] at hs
    simp only at hs
    obtain ⟨hsq, hsw, hss, hsd, hsi, hsj⟩ := hs
    simp only [if_true] at hsq hsw hss
    simp only [h4]
    simp
    refine ⟨by omega, by omega, by omega, by omega, ?_⟩
    intro h
    exact hsj (by omega)

theorem executeBuy_callBounds (ready cacheEnabled : Bool) (cache : Option PreloadCache)
    (ca : String) (amount : ℚ) (now : Timestamp) (w : BuyWorld) :
    (executeBuy ready cacheEnabled cache ca amount now w).calls.quote ≤ 2 ∧
    (executeBuy ready cacheEnabled cache ca amount now w).calls.sign ≤ 3 ∧
    (executeBuy ready cacheEnabled cache ca amount now w).calls.send ≤ 2 ∧
    ((executeBuy ready cacheEnabled cache ca amount now w).usedCache = false →
      (executeBuy ready cacheEnabled cache ca amount now w).calls.quote ≤ 1 ∧
      (executeBuy ready cacheEnabled cache ca amount now w).calls.sign ≤ 1 ∧
      (executeBuy ready cacheEnabled cache ca amount now w).calls.send ≤ 1) := by
  unfold executeBuy
  rcases ready with _ | _
  · simp
  · simp only [Bool.not_true, Bool.false_eq_true, if_false]
    rcases hd : buyCacheDecision cacheEnabled cache ca amount now with _ | art <;>
      simp only [hd]
    · have hb := buildBuy_calls w 0
      rcases h2 : buildBuy w 0 with ⟨e2 | a1, cs⟩ <;> rw [h2] at hb <;> simp only at hb <;>
        simp only [h2]
      · rcases hb with h | h <;> subst h <;> simp
      · rcases h3 : w.sign 0 a1 with e3 | s <;> simp only [h3]
        · rcases hb with h | h <;> subst h <;> simp
        · have hs := buySendStage_calls w 0 1 0 s false
          rcases h4 : buySendStage w 0 1 0 s false with ⟨r, cs2⟩
          rw [h4] at hs
          simp only at hs
          obtain ⟨hsq, hsw, hss, hsd, _, _⟩ := hs
          simp at hsq hsw hss
          simp only [h4]
          rcases hb with h | h <;> subst h <;> simp <;> omega
    · have hc := buySignStageCached_calls w art
      rcases h2 : buySignStageCached w art with ⟨r, cs⟩
      rw [h2] at hc
      simp only at hc
      obtain ⟨hq, hw, hg, hd2, _⟩ := hc
      simp only [h2]
      simp
      omega

theorem executeSell_callBounds (ready cacheEnabled : Bool) (cache : Option PreloadCache)
    (ca : String) (percent : ℚ) (now : Timestamp) (w : SellWorld) :
    (executeSell ready cacheEnabled cache ca percent now w).calls.quote ≤ 2 ∧
    (executeSell ready cacheEnabled cache ca percent now w).calls.sign ≤ 3 ∧
    (executeSell ready cacheEnabled cache ca percent now w).calls.send ≤ 2 ∧
    ((executeSell ready cacheEnabled cache ca percent now w).usedCache = false →
      (executeSell ready cacheEnabled cache ca percent now w).calls.quote ≤ 1 ∧
      (executeSell ready cacheEnabled cache ca percent now w).calls.sign ≤ 1 ∧
      (executeSell ready cacheEnabled cache ca percent now w).calls.send ≤ 1) := by
  unfold executeSell
  rcases ready with _ | _
  · simp
  · simp only [Bool.not_true, Bool.false_eq_true, if_false]
    rcases h1 : w.balance 0 with e | bal <;> rcases h2 : w.decimals 0 with e2 | dec <;>
      simp only [h1, h2]
    · simp
    · simp
    · simp
    · by_cases hb0 : bal = 0
      · simp [hb0]
      · simp only [if_neg hb0]
        rcases h3 : w.rawBalance 0 with e3 | raw <;> simp only [h3]
        · simp
        · rcases hd : sellCacheDecision cacheEnabled cache ca percent now bal with _ | art <;>
            simp only [hd]
          · by_cases hr0 : raw = 0
            · simp [hr0]
            · simp only [if_neg hr0]
              by_cases ha : rawSellAmount raw percent = 0
              · simp [ha]
              · simp only [if_neg ha]
                rcases h4 : w.quote 0 with e4 | q <;> simp only [h4]
                · simp
                · rcases h5 : w.swap 0 with e5 | a <;> simp only [h5]
                  · simp
                  · rcases h6 : w.sign 0 a with e6 | s <;> simp only [h6]
                    · simp
                    · have hs := sellSendStage_calls w percent 0 1 0 s false
                      rcases h7 : sellSendStage w percent 0 1 0 s false with ⟨r, cs2⟩
                      rw [h7] at hs
                      simp only at hs
                      obtain ⟨hsq, hsw, hss, hsd, _, _⟩ := hs
                      simp at hsq hsw hss
                      simp only [h7]
                      simp
                      omega
          · have hc := sellSignStageCached_calls w percent art
            rcases h4 : sellSignStageCached w percent art with ⟨r, cs⟩
            rw [h4] at hc
            simp only at hc
            obtain ⟨hq, hw, hg, hd2, _⟩ := hc
            simp only [h4]
            simp
            omega

/-! ### Concrete scenario worlds used as counterexamples and witnesses -/

/-- A fresh cache for token `A` built at time 0: one buy transaction for
amount 1 SOL, one sell transaction for 50%, decimals 9, balance snapshot
100. -/
def cexCache : PreloadCache :=
  ⟨"A", [(1, "cachedBuyTx")], [(50, "cachedSellTx")], 9, 100, 0⟩

/-- A world in which the cached artifact fails to sign (expired blockhash),
the first rebuild succeeds, the rebuilt transaction then fails to submit, and
the second rebuild and submission succeed. -/
def doubleRebuildWorld : BuyWorld where
  quote := fun _ => .ok "quoteResponse"
  swap := fun k => .ok ("freshTx" ++ toString k)
  sign := fun k a => if k = 0 then .error "blockhash expired" else .ok ("signed:" ++ a)
  send := fun k _ => if k = 0 then .error "send failed" else .ok "SIG"

/-- A sell world whose UI and raw token balances are zero and whose venue calls
would all succeed if they were reached. -/
def zeroBalanceSellWorld : SellWorld where
  balance := fun _ => .ok 0
  decimals := fun _ => .ok 9
  rawBalance := fun _ => .ok 0
  quote := fun _ => .ok "quoteResponse"
  swap := fun _ => .ok "sellTx"
  sign := fun _ a => .ok ("signed:" ++ a)
  send := fun _ _ => .ok "SELLSIG"

/-! ### C1 -/

/-- C1 counterexample: in a single `executeBuy` whose cached artifact fails to
sign, whose rebuilt replacement signs but then fails to submit, the pipeline
rebuilds a second time (two quote requests) and still returns a signature —
so a cache-sourced user action can rebuild twice, not at most once. -/
theorem executeBuy_cached_failure_two_rebuilds :
    (executeBuy true true (some cexCache) "A" 1 1000 doubleRebuildWorld).usedCache = true ∧
    (executeBuy true true (some cexCache) "A" 1 1000 doubleRebuildWorld).result
      = Except.ok "SIG" ∧
    (executeBuy true true (some cexCache) "A" 1 1000 doubleRebuildWorld).calls.quote = 2 := by
  decide

/-- C1 (amended): in every `executeBuy`/`executeSell`, each failure stage
retries at most once — at most 2 quote requests (initial or first rebuild plus
one more rebuild), at most 3 signature attempts and at most 2 submissions per
user action — and when the artifact in use did not come from the cache, a
signing or submission failure propagates with no rebuild at all (at most one
quote, one signature and one submission in the whole run). -/
theorem execute_rebuild_per_stage_bound (ready cacheEnabled : Bool)
    (cache : Option PreloadCache) (ca : String) (amount percent : ℚ) (now : Timestamp)
    (wb : BuyWorld) (ws : SellWorld) :
    ((executeBuy ready cacheEnabled cache ca amount now wb).calls.quote ≤ 2 ∧
     (executeBuy ready cacheEnabled cache ca amount now wb).calls.sign ≤ 3 ∧
     (executeBuy ready cacheEnabled cache ca amount now wb).calls.send ≤ 2 ∧
     ((executeBuy ready cacheEnabled cache ca amount now wb).usedCache = false →
       (executeBuy ready cacheEnabled cache ca amount now wb).calls.quote ≤ 1 ∧
       (executeBuy ready cacheEnabled cache ca amount now wb).calls.sign ≤ 1 ∧
       (executeBuy ready cacheEnabled cache ca amount now wb).calls.send ≤ 1)) ∧
    ((executeSell ready cacheEnabled cache ca percent now ws).calls.quote ≤ 2 ∧
     (executeSell ready cacheEnabled cache ca percent now ws).calls.sign ≤ 3 ∧
     (executeSell ready cacheEnabled cache ca percent now ws).calls.send ≤ 2 ∧
     ((executeSell ready cacheEnabled cache ca percent now ws).usedCache = false →
       (executeSell ready cacheEnabled cache ca percent now ws).calls.quote ≤ 1 ∧
       (executeSell ready cacheEnabled cache ca percent now ws).calls.sign ≤ 1 ∧
       (executeSell ready cacheEnabled cache ca percent now ws).calls.send ≤ 1)) :=
  ⟨executeBuy_callBounds ready cacheEnabled cache ca amount now wb,
   executeSell_callBounds ready cacheEnabled cache ca percent now ws⟩

/-- Witness for the amended C1 bound at concrete inputs, discharging the
non-cache hypothesis on a run with no cache. -/
theorem execute_rebuild_per_stage_bound_witness :
    (executeBuy true true none "A" 1 0 doubleRebuildWorld).calls.quote ≤ 1 ∧
    (executeSell true true none "A" 50 0 zeroBalanceSellWorld).calls.quote ≤ 1 := by
  have h := execute_rebuild_per_stage_bound true true none "A" 1 50 0
    doubleRebuildWorld zeroBalanceSellWorld
  exact ⟨(h.1.2.2.2 (by decide)).1, (h.2.2.2.2 (by decide)).1⟩

/-! ### C9 -/

/-- C9 counterexample: a 100% sell with zero balance does fail with the
`No token balance` error, but only after one UI-balance read and one decimals
read — two collaborator network calls — so the failure is not reached with no
network calls made. -/
theorem executeSell_zeroBalance_makes_network_calls :
    (executeSell true true none "A" 100 0 zeroBalanceSellWorld).result
      = Except.error "No token balance" ∧
    (executeSell true true none "A" 100 0 zeroBalanceSellWorld).calls.balance = 1 ∧
    (executeSell true true none "A" 100 0 zeroBalanceSellWorld).calls.decimals = 1 := by
  decide

/-- C9 (amended): every `executeSell` that observes a zero UI token balance
fails with the `No token balance` error after exactly one balance read and one
decimals read, with no raw-balance read, no quote request, no swap build, no
signature and no submission. -/
theorem executeSell_zeroBalance_noBalance_error (cacheEnabled : Bool)
    (cache : Option PreloadCache) (ca : String) (percent : ℚ) (now : Timestamp)
    (w : SellWorld) (d : Nat) (hb : w.balance 0 = Except.ok 0)
    (hd : w.decimals 0 = Except.ok d) :
    executeSell true cacheEnabled cache ca percent now w =
      ⟨Except.error "No token balance", false, { balance := 1, decimals := 1 }⟩ := by
  unfold executeSell
  simp [hb, hd]

/-- Witness for the amended C9 at the concrete zero-balance world. -/
theorem executeSell_zeroBalance_noBalance_error_witness :
    executeSell true true none "A" 100 0 zeroBalanceSellWorld =
      ⟨Except.error "No token balance", false, { balance := 1, decimals := 1 }⟩ :=
  executeSell_zeroBalance_noBalance_error true none "A" 100 0 zeroBalanceSellWorld 9 rfl rfl

/-- Whether `executeSell` selects the cached artifact is exactly the
`sellCacheDecision` computed from the freshly fetched live balance. -/
theorem executeSell_usedCache_eq (cacheEnabled : Bool) (cache : Option PreloadCache)
    (ca : String) (percent : ℚ) (now : Timestamp) (w : SellWorld) (live : ℚ) (d raw : Nat)
    (hb : w.balance 0 = Except.ok live) (hd : w.decimals 0 = Except.ok d)
    (hr : w.rawBalance 0 = Except.ok raw) (hlz : live ≠ 0) :
    (executeSell true cacheEnabled cache ca percent now w).usedCache =
      (sellCacheDecision cacheEnabled cache ca percent now live).isSome := by
  unfold executeSell
  simp only [hb, hd, hr, Bool.not_true, Bool.false_eq_true, if_false, if_neg hlz]
  rcases hdec : sellCacheDecision cacheEnabled cache ca percent now live with _ | art <;>
    simp only [hdec]
  · by_cases hr0 : raw = 0
    · simp [hr0]
    · simp only [if_neg hr0]
      by_cases ha : rawSellAmount raw percent = 0
      · simp [ha]
      · simp only [if_neg ha]
        rcases h4 : w.quote 0 with e4 | q <;> simp only [h4]
        · simp
        · rcases h5 : w.swap 0 with e5 | a <;> simp only [h5]
          · simp
          · rcases h6 : w.sign 0 a with e6 | s <;> simp only [h6]
            · simp
            · rcases h7 : sellSendStage w percent 0 1 0 s false with ⟨r, cs2⟩
              simp [h7]
  · simp

/-! ### C2 -/

/-- A sell world observing live balance 200 against the cached snapshot 100
(100% drift), with all venue calls succeeding. -/
def driftSellWorld : SellWorld where
  balance := fun _ => .ok 200
  decimals := fun _ => .ok 9
  rawBalance := fun _ => .ok 200000
  quote := fun _ => .ok "quoteResponse"
  swap := fun _ => .ok "sellTx"
  sign := fun _ a => .ok ("signed:" ++ a)
  send := fun _ _ => .ok "SELLSIG"

/-- C2 counterexample: an `executeSell` at cache age 1000ms (strictly below
`CACHE_FRESH_THRESHOLD`), caching enabled, matching token, and a cached
artifact present for the requested percentage, still rebuilds instead of using
the cache, because the live balance drifted 100% from the snapshot; so
freshness alone does not guarantee cache use. -/
theorem sell_fresh_cache_unused_on_drift :
    (1000 - cexCache.timestamp < CACHE_FRESH_THRESHOLD ∧
      mapHas cexCache.sellTrades 50 = true) ∧
    sellCacheDecision true (some cexCache) "A" 50 1000 200 = none ∧
    (executeSell true true (some cexCache) "A" 50 1000 driftSellWorld).usedCache = false := by
  have hdec : sellCacheDecision true (some cexCache) "A" 50 1000 200 = none := by
    unfold sellCacheDecision isCacheValid
    norm_num [cexCache, mapGet, CACHE_TTL, CACHE_FRESH_THRESHOLD]
  refine ⟨⟨by norm_num [cexCache, CACHE_FRESH_THRESHOLD],
    by norm_num [mapHas, mapGet, cexCache]⟩, hdec, ?_⟩
  have h := executeSell_usedCache_eq true (some cexCache) "A" 50 1000 driftSellWorld
    200 9 200000 rfl rfl rfl (by norm_num)
  rw [h, hdec]
  rfl

/-- C2 (amended): with caching enabled, a token-matching cache holding the
requested amount/percentage: a buy uses the cached artifact exactly when the
cache age is strictly below `CACHE_FRESH_THRESHOLD`, and rebuilds at or above
it; a sell likewise rebuilds at or above the threshold, and below the
threshold uses the cached artifact provided the balance drift from the cached
snapshot is under 5%. -/
theorem freshness_boundary (c : PreloadCache) (ca : String) (amount percent : ℚ)
    (now : Timestamp) (live : ℚ) (hca : c.ca = ca)
    (hbuy : mapHas c.buyTrades amount = true) (hsell : mapHas c.sellTrades percent = true) :
    (now - c.timestamp < CACHE_FRESH_THRESHOLD →
      buyCacheDecision true (some c) ca amount now = mapGet c.buyTrades amount) ∧
    (CACHE_FRESH_THRESHOLD ≤ now - c.timestamp →
      buyCacheDecision true (some c) ca amount now = none) ∧
    (CACHE_FRESH_THRESHOLD ≤ now - c.timestamp →
      sellCacheDecision true (some c) ca percent now live = none) ∧
    (now - c.timestamp < CACHE_FRESH_THRESHOLD →
      (0 < c.tokenBalance → |live - c.tokenBalance| / c.tokenBalance * 100 < 5) →
      sellCacheDecision true (some c) ca percent now live = mapGet c.sellTrades percent) := by
  refine ⟨?_, ?_, ?_, ?_⟩
  · intro h
    have httl : now - c.timestamp < CACHE_TTL :=
      lt_of_lt_of_le h (by norm_num [CACHE_FRESH_THRESHOLD, CACHE_TTL])
    rcases hmg : mapGet c.buyTrades amount with _ | art
    · simp [mapHas, hmg] at hbuy
    · unfold buyCacheDecision isCacheValid
      simp [hca, httl, hmg, h]
  · intro h
    unfold buyCacheDecision isCacheValid
    by_cases httl : now - c.timestamp < CACHE_TTL
    · rcases hmg : mapGet c.buyTrades amount with _ | art <;>
        simp [hca, httl, hmg, not_lt.mpr h]
    · simp [hca, httl]
  · intro h
    unfold sellCacheDecision isCacheValid
    by_cases httl : now - c.timestamp < CACHE_TTL
    · rcases hmg : mapGet c.sellTrades percent with _ | art <;>
        simp [hca, httl, hmg, not_lt.mpr h]
    · simp [hca, httl]
  · intro h hdrift
    have httl : now - c.timestamp < CACHE_TTL :=
      lt_of_lt_of_le h (by norm_num [CACHE_FRESH_THRESHOLD, CACHE_TTL])
    rcases hmg : mapGet c.sellTrades percent with _ | art
    · simp [mapHas, hmg] at hsell
    · unfold sellCacheDecision isCacheValid
      by_cases hpos : 0 < c.tokenBalance
      · simp [hca, httl, hmg, h, hpos, hdrift hpos]
      · simp [hca, httl, hmg, h, hpos]

/-- Witness for the amended C2 at concrete inputs: at age 6000ms (past the 5s
threshold) both buy and sell decisions rebuild, and at age 1000ms with no
drift the buy decision uses the cache. -/
theorem freshness_boundary_witness :
    buyCacheDecision true (some cexCache) "A" 1 6000 = none ∧
    sellCacheDecision true (some cexCache) "A" 50 6000 100 = none ∧
    buyCacheDecision true (some cexCache) "A" 1 1000 = some "cachedBuyTx" := by
  have h := freshness_boundary cexCache "A" 1 50 6000 100 rfl
    (by norm_num [mapHas, mapGet, cexCache]) (by norm_num [mapHas, mapGet, cexCache])
  have h2 := freshness_boundary cexCache "A" 1 50 1000 100 rfl
    (by norm_num [mapHas, mapGet, cexCache]) (by norm_num [mapHas, mapGet, cexCache])
  refine ⟨h.2.1 (by decide), h.2.2.1 (by decide), ?_⟩
  have := h2.1 (by decide)
  rw [this]
  norm_num [mapGet, cexCache]

/-! ### C3 -/

/-- C3: for an otherwise fresh, token-matching cache entry for the requested
sell percentage with a positive balance snapshot, the cached artifact is used
exactly when the live balance differs from the snapshot by strictly less than
5% of the snapshot; at 5% or more the decision is `none` and `executeSell`
takes the rebuild path (its `usedCache` flag equals the decision). -/
theorem sell_balance_drift_boundary (c : PreloadCache) (ca : String) (percent : ℚ)
    (now : Timestamp) (live : ℚ) (hca : c.ca = ca)
    (hfresh : now - c.timestamp < CACHE_FRESH_THRESHOLD)
    (hsell : mapHas c.sellTrades percent = true) (hpos : 0 < c.tokenBalance) :
    (5 ≤ |live - c.tokenBalance| / c.tokenBalance * 100 →
      sellCacheDecision true (some c) ca percent now live = none) ∧
    (|live - c.tokenBalance| / c.tokenBalance * 100 < 5 →
      sellCacheDecision true (some c) ca percent now live = mapGet c.sellTrades percent) ∧
    (∀ (w : SellWorld) (d raw : Nat), w.balance 0 = Except.ok live →
      w.decimals 0 = Except.ok d → w.rawBalance 0 = Except.ok raw → live ≠ 0 →
      (executeSell true true (some c) ca percent now w).usedCache =
        (sellCacheDecision true (some c) ca percent now live).isSome) := by
  have httl : now - c.timestamp < CACHE_TTL :=
    lt_of_lt_of_le hfresh (by norm_num [CACHE_FRESH_THRESHOLD, CACHE_TTL])
  rcases hmg : mapGet c.sellTrades percent with _ | art
  · simp [mapHas, hmg] at hsell
  · refine ⟨?_, ?_, ?_⟩
    · intro h
      unfold sellCacheDecision isCacheValid
      simp [hca, httl, hmg, hpos, not_lt.mpr h]
    · intro h
      unfold sellCacheDecision isCacheValid
      simp [hca, httl, hmg, hpos, hfresh, h]
    · intro w d raw hb hd hr hlz
      exact executeSell_usedCache_eq true (some c) ca percent now w live d raw hb hd hr hlz

/-- Witness for C3 at 4.99% drift: snapshot 10000, live 10499 — the cached
artifact is used. -/
theorem sell_balance_drift_boundary_witness :
    sellCacheDecision true (some ⟨"A", [], [(50, "sellTx50")], 9, 10000, 0⟩) "A" 50 1000 10499
      = some "sellTx50" := by
  have h := sell_balance_drift_boundary ⟨"A", [], [(50, "sellTx50")], 9, 10000, 0⟩ "A" 50
    1000 10499 rfl (by decide) (by norm_num [mapHas, mapGet]) (by norm_num)
  have hlt : |(10499 : ℚ) - 10000| / 10000 * 100 < 5 := by
    rw [show |(10499 : ℚ) - 10000| = 499 by rw [abs_of_nonneg] <;> norm_num]
    norm_num
  have := h.2.1 hlt
  rw [this]
  norm_num [mapGet]

/-! ### Preload lemmas -/

theorem mapGet_filterMap_of_not (cond : ℚ → Bool) (art : ℚ → Artifact) (l : List ℚ) (a : ℚ)
    (h : cond a = false) :
    mapGet (l.filterMap fun x => if cond x then some (x, art x) else none) a = none := by
  induction l with
  | nil => rfl
  | cons b l ih =>
    by_cases hb : cond b = true
    · rw [List.filterMap_cons]
      simp only [hb, if_true]
      unfold mapGet
      have hab : ¬a = b := fun hab => by rw [hab, hb] at h; cases h
      rw [if_neg hab]
      exact ih
    · rw [List.filterMap_cons]
      simp only [Bool.not_eq_true] at hb
      simp only [hb, Bool.false_eq_true, if_false]
      exact ih

theorem mapGet_filterMap_of_mem (cond : ℚ → Bool) (art : ℚ → Artifact) (l : List ℚ) (a : ℚ)
    (h : a ∈ l) :
    mapGet (l.filterMap fun x => if cond x then some (x, art x) else none) a =
      if cond a then some (art a) else none := by
  induction l with
  | nil => cases h
  | cons b l ih =>
    rw [List.filterMap_cons]
    by_cases hb : cond b = true
    · simp only [hb, if_true]
      unfold mapGet
      by_cases hab : a = b
      · subst hab
        simp [hb]
      · rw [if_neg hab]
        rcases List.mem_cons.mp h with h' | h'
        · exact absurd h' hab
        · exact ih h'
    · simp only [Bool.not_eq_true] at hb
      simp only [hb, Bool.false_eq_true, if_false]
      by_cases hab : a = b
      · subst hab
        rw [hb, if_neg (by simp)]
        exact mapGet_filterMap_of_not cond art l a hb
      · rcases List.mem_cons.mp h with h' | h'
        · exact absurd h' hab
        · exact ih h'

/-- A failing `preloadTrades` never touches the cache variable. -/
theorem preloadTrades_error_unchanged (w : PreloadWorld) (cache0 : Option PreloadCache)
    (ca : String) (h : ∃ e, (preloadTrades w cache0 ca).1 = Except.error e) :
    (preloadTrades w cache0 ca).2 = cache0 := by
  obtain ⟨e, he⟩ := h
  unfold preloadTrades at he ⊢
  rcases hr : w.ready with _ | _
  · simp [hr]
  · simp only [hr, Bool.not_true, Bool.false_eq_true, if_false] at he ⊢
    rcases hc : w.enableCache with _ | _
    · simp [hc]
    · simp [hc] at he

/-! ### C4 -/

/-- A preload world with clients available, caching enabled, and every
collaborator call succeeding. -/
def basePreloadWorld : PreloadWorld where
  ready := true
  enableCache := true
  buyPresets := [1/2, 1]
  sellPresets := [50, 100]
  decimals := 9
  balance := .ok 100
  rawBalance := .ok 100000
  buyQuoteOk := fun _ => true
  buySwapOk := fun _ => true
  sellQuoteOk := fun _ => true
  sellSwapOk := fun _ => true
  buyArt := fun _ => "buyTx"
  sellArt := fun _ => "sellTx"
  now := 5

/-- The base world with the prerequisite clients unavailable (also after the
re-initialization attempt). -/
def notReadyPreloadWorld : PreloadWorld :=
  { basePreloadWorld with ready := false }

/-- The base world with the primary UI-balance read failing outright. -/
def balanceFailPreloadWorld : PreloadWorld :=
  { basePreloadWorld with balance := .error "balance unavailable" }

/-- C4: `preloadTrades` throws exactly when the prerequisite clients are
unavailable — in particular only for the causes the claim permits — and
otherwise succeeds, producing a cache for the requested token in which each
buy preset is present exactly when its own quote and swap build both succeeded
(one build failure removes only that entry), likewise for each sell preset
whose raw amount is positive; a raw-balance re-read failure merely leaves the
sell side empty, and a primary balance-read failure is caught and treated as
balance 0 (sell side skipped) without failing the preload. -/
theorem preload_partial_failure_semantics (w : PreloadWorld) (cache0 : Option PreloadCache)
    (ca : String) :
    ((∃ e, (preloadTrades w cache0 ca).1 = Except.error e) ↔ w.ready = false) ∧
    (w.ready = true → w.enableCache = true →
      ∃ c, (preloadTrades w cache0 ca).2 = some c ∧ c.ca = ca ∧
        (∀ a ∈ w.buyPresets, mapGet c.buyTrades a =
          if w.buyQuoteOk a && w.buySwapOk a then some (w.buyArt a) else none) ∧
        (∀ bal, w.balance = Except.ok bal → 0 < bal →
          ∀ raw, w.rawBalance = Except.ok raw →
          ∀ p ∈ w.sellPresets, 0 < rawSellAmount raw p →
            mapGet c.sellTrades p =
              if w.sellQuoteOk p && w.sellSwapOk p then some (w.sellArt p) else none) ∧
        (∀ e, w.rawBalance = Except.error e → c.sellTrades = []) ∧
        (∀ e, w.balance = Except.error e → c.tokenBalance = 0 ∧ c.sellTrades = [])) := by
  constructor
  · unfold preloadTrades
    rcases hr : w.ready with _ | _
    · simp [hr]
    · simp only [hr, Bool.not_true, Bool.false_eq_true, if_false]
      rcases hc : w.enableCache with _ | _ <;> simp [hc]
  · intro hr hc
    unfold preloadTrades
    simp only [hr, hc, Bool.not_true, Bool.false_eq_true, if_false]
    refine ⟨_, rfl, rfl, ?_, ?_, ?_, ?_⟩
    · intro a ha
      exact mapGet_filterMap_of_mem _ _ _ _ ha
    · intro bal hbal hpos raw hraw p hp hamt
      simp only [hbal, hraw, if_pos hpos]
      exact mapGet_filterMap_of_mem _ _ _ _ (List.mem_filter.mpr ⟨hp, by simp [hamt]⟩)
    · intro e he
      simp only [he]
      split <;> rfl
    · intro e he
      simp [he]

/-- A preload world in which the buy build for amount 1 fails while the one
for amount 1/2 succeeds. -/
def partialFailPreloadWorld : PreloadWorld :=
  { basePreloadWorld with buyQuoteOk := fun a => decide (a < 1) }

/-- Witness for C4: in a preload where only the amount-1 build fails, the
resulting cache holds the amount-1/2 artifact and lacks only the amount-1
entry; and a preload whose primary balance read fails still succeeds. -/
theorem preload_partial_failure_semantics_witness :
    (∃ c, (preloadTrades partialFailPreloadWorld none "B").2 = some c ∧ c.ca = "B" ∧
      mapGet c.buyTrades (1/2) = some "buyTx" ∧ mapGet c.buyTrades 1 = none) ∧
    (preloadTrades balanceFailPreloadWorld none "B").1 = Except.ok () := by
  constructor
  · obtain ⟨c, hc, hca, hbuy, _, _, _⟩ :=
      (preload_partial_failure_semantics partialFailPreloadWorld none "B").2 rfl rfl
    refine ⟨c, hc, hca, ?_, ?_⟩
    · rw [hbuy (1/2) (by norm_num [partialFailPreloadWorld, basePreloadWorld])]
      norm_num [partialFailPreloadWorld, basePreloadWorld]
    · rw [hbuy 1 (by norm_num [partialFailPreloadWorld, basePreloadWorld])]
      norm_num [partialFailPreloadWorld, basePreloadWorld]
  · rcases hres : (preloadTrades balanceFailPreloadWorld none "B").1 with e | u
    · have hfalse :=
        (preload_partial_failure_semantics balanceFailPreloadWorld none "B").1.mp ⟨e, hres⟩
      exact absurd hfalse (by decide)
    · cases u
      exact hres

/-! ### C5 -/

/-- C5 counterexample: a preload request for new token `B` that fails (clients
unavailable, the function's one throw: `Not ready`) leaves the prior token
`A`'s whole cache — including its artifacts — in place, so switching tokens
does not by itself invalidate the old cache. -/
theorem preload_failure_keeps_old_cache_cex :
    (preloadTrades notReadyPreloadWorld (some cexCache) "B").1
      = Except.error "Not ready" ∧
    (preloadTrades notReadyPreloadWorld (some cexCache) "B").2 = some cexCache ∧
    cexCache.ca = "A" ∧ mapGet cexCache.buyTrades 1 = some "cachedBuyTx" := by
  decide

/-- C5 (amended): the cache variable holds at most one token's artifacts at a
time, and a *successful* preload (with caching enabled) replaces it wholesale
with a cache for the requested token; but a failed preload — and one with
caching disabled — leaves the previous cache, old token included,
untouched. -/
theorem preload_cache_replacement (w : PreloadWorld) (cache0 : Option PreloadCache)
    (ca : String) :
    ((∃ e, (preloadTrades w cache0 ca).1 = Except.error e) →
      (preloadTrades w cache0 ca).2 = cache0) ∧
    (w.enableCache = false → (preloadTrades w cache0 ca).2 = cache0) ∧
    ((preloadTrades w cache0 ca).1 = Except.ok () → w.enableCache = true →
      ∃ c, (preloadTrades w cache0 ca).2 = some c ∧ c.ca = ca ∧ c.timestamp = w.now) := by
  refine ⟨preloadTrades_error_unchanged w cache0 ca, ?_, ?_⟩
  · intro hc
    unfold preloadTrades
    rcases hr : w.ready with _ | _
    · simp [hr]
    · simp [hr, hc]
  · intro hok hc
    unfold preloadTrades at hok ⊢
    rcases hr : w.ready with _ | _
    · simp [hr] at hok
    · simp only [hr, hc, Bool.not_true, Bool.false_eq_true, if_false] at hok ⊢
      exact ⟨_, rfl, rfl, rfl⟩

/-- Witness for the amended C5: the failing (`Not ready`) preload for token
`B` leaves the prior cache in place, and a successful one replaces it with a
token-`B` cache. -/
theorem preload_cache_replacement_witness :
    (preloadTrades notReadyPreloadWorld (some cexCache) "B").2 = some cexCache ∧
    ∃ c, (preloadTrades balanceFailPreloadWorld (some cexCache) "B").2 = some c ∧
      c.ca = "B" ∧ c.timestamp = 5 := by
  constructor
  · exact (preload_cache_replacement notReadyPreloadWorld (some cexCache) "B").1
      ⟨"Not ready", by decide⟩
  · exact (preload_cache_replacement balanceFailPreloadWorld (some cexCache) "B").2.2
      (by decide) rfl

/-! ### C6 -/

/-- C6: a refresh tick for token `A` cancels the timer — and performs no
rebuild — whenever the cache has been cleared, holds a different token, or has
reached its TTL; a cancelling tick leaves the cache untouched, and when a
rebuilding tick's preload fails, the failure is swallowed and the existing
cache is left unchanged. -/
theorem refresh_tick_selfCancel_and_swallow (tokenA : String) (cache : Option PreloadCache)
    (now : Timestamp) (w : PreloadWorld) :
    (cache = none → refreshTickAction tokenA cache now = TickAction.cancel) ∧
    (∀ c, cache = some c → c.ca ≠ tokenA → refreshTickAction tokenA cache now = .cancel) ∧
    (∀ c, cache = some c → CACHE_TTL ≤ now - c.timestamp →
      refreshTickAction tokenA cache now = .cancel) ∧
    (refreshTickAction tokenA cache now = .cancel → refreshTickRun tokenA cache now w = cache) ∧
    ((∃ e, (preloadTrades w cache tokenA).1 = Except.error e) →
      refreshTickRun tokenA cache now w = cache) := by
  refine ⟨?_, ?_, ?_, ?_, ?_⟩
  · intro h
    subst h
    rfl
  · intro c hc hne
    subst hc
    simp [refreshTickAction, hne]
  · intro c hc httl
    subst hc
    simp [refreshTickAction, not_lt.mpr httl]
  · intro h
    unfold refreshTickRun
    rw [h]
  · intro h
    unfold refreshTickRun
    rcases ha : refreshTickAction tokenA cache now with _ | _
    · exact preloadTrades_error_unchanged w cache tokenA h
    · rfl

/-- Witness for C6: with the cache holding token `A`, a tick of the timer for
token `B` cancels and leaves the cache unchanged. -/
theorem refresh_tick_selfCancel_and_swallow_witness :
    refreshTickAction "B" (some cexCache) 500 = TickAction.cancel ∧
    refreshTickRun "B" (some cexCache) 500 basePreloadWorld = some cexCache := by
  have h := refresh_tick_selfCancel_and_swallow "B" (some cexCache) 500 basePreloadWorld
  have hact := h.2.1 cexCache rfl (by decide)
  exact ⟨hact, h.2.2.2.1 hact⟩

/-! ### Jito lemmas -/

theorem jitoEff_eq (n : Nat) (f : Nat → JitoOutcome) (hn : 0 < n) (h5 : n ≤ 5) :
    jitoEffOutcome n f = f := by
  funext i
  unfold jitoEffOutcome
  rw [if_neg (by omega), if_neg (by omega)]

/-- Exhausting all three attempts on rate-limit responses returns the `null`
degradation sentinel, not an error. -/
theorem sendBundle_allRL (n : Nat) (f : Nat → JitoOutcome) (hn : 0 < n) (h5 : n ≤ 5)
    (hrl : ∀ i, i < 3 → f i = JitoOutcome.rateLimited) :
    sendBundle n f 3 = (Except.ok none, 3) := by
  unfold sendBundle
  rw [jitoEff_eq n f hn h5]
  simp [sendBundleLoop, hrl 0 (by norm_num), hrl 1 (by norm_num), hrl 2 (by norm_num)]

/-! ### C7 -/

/-- Attempt outcomes where the first attempt fails with a non-rate-limit
network error and the second succeeds. -/
def jitoRetryAfterFailOutcomes : Nat → JitoOutcome :=
  fun i => if i = 0 then .fail "connection reset" else .ok "BUNDLEID"

/-- C7 counterexample: when the first `sendBundle` attempt fails with an
error that is *not* a rate-limit response, the loop still performs a second
attempt (2 attempts made) and returns its bundle id — so retries are not
reserved solely for rate-limit responses, under which policy this run would
have surfaced the error after one attempt. -/
theorem sendBundle_retries_non_rate_limit_cex :
    jitoRetryAfterFailOutcomes 0 = JitoOutcome.fail "connection reset" ∧
    sendBundle 1 jitoRetryAfterFailOutcomes 3 = (Except.ok (some "BUNDLEID"), 2) := by
  decide

/-- C7 (amended): `sendBundle` retries with backoff after *any* failed attempt
— rate-limited or not — up to 3 attempts; a success at any attempt returns its
bundle id, exhausting the attempts on a final rate-limit response returns the
`null` "unavailable" sentinel rather than an error, and a non-rate-limit
failure at the final attempt throws.  (No caller in the repository reacts to
the sentinel by falling back to the direct channel; see
`sendAndConfirmBundle`.) -/
theorem sendBundle_retry_semantics (n : Nat) (f : Nat → JitoOutcome)
    (hn : 0 < n) (h5 : n ≤ 5) :
    (∀ id, f 0 = .ok id → sendBundle n f 3 = (Except.ok (some id), 1)) ∧
    (∀ id, (∀ x, f 0 ≠ .ok x) → f 1 = .ok id →
      sendBundle n f 3 = (Except.ok (some id), 2)) ∧
    (∀ id, (∀ x, f 0 ≠ .ok x) → (∀ x, f 1 ≠ .ok x) → f 2 = .ok id →
      sendBundle n f 3 = (Except.ok (some id), 3)) ∧
    ((∀ x, f 0 ≠ .ok x) → (∀ x, f 1 ≠ .ok x) → f 2 = .rateLimited →
      sendBundle n f 3 = (Except.ok none, 3)) ∧
    (∀ m, (∀ x, f 0 ≠ .ok x) → (∀ x, f 1 ≠ .ok x) → f 2 = .fail m →
      sendBundle n f 3 = (Except.error m, 3)) := by
  unfold sendBundle
  rw [jitoEff_eq n f hn h5]
  refine ⟨?_, ?_, ?_, ?_, ?_⟩
  · intro id h0
    simp [sendBundleLoop, h0]
  · intro id h0 h1
    rcases hf0 : f 0 with x | _ | m
    · exact absurd hf0 (h0 x)
    · simp [sendBundleLoop, hf0, h1]
    · simp [sendBundleLoop, hf0, h1]
  · intro id h0 h1 h2
    rcases hf0 : f 0 with x | _ | m <;> [exact absurd hf0 (h0 x); skip; skip] <;>
      rcases hf1 : f 1 with x | _ | m' <;>
      first
        | exact absurd hf1 (h1 x)
        | simp [sendBundleLoop, hf0, hf1, h2]
  · intro h0 h1 h2
    rcases hf0 : f 0 with x | _ | m <;> [exact absurd hf0 (h0 x); skip; skip] <;>
      rcases hf1 : f 1 with x | _ | m' <;>
      first
        | exact absurd hf1 (h1 x)
        | simp [sendBundleLoop, hf0, hf1, h2]
  · intro m h0 h1 h2
    rcases hf0 : f 0 with x | _ | m2 <;> [exact absurd hf0 (h0 x); skip; skip] <;>
      rcases hf1 : f 1 with x | _ | m3 <;>
      first
        | exact absurd hf1 (h1 x)
        | simp [sendBundleLoop, hf0, hf1, h2]

/-- Witness for the amended C7: three straight rate-limit responses yield the
`null` sentinel after 3 attempts, and a first-attempt success returns
immediately. -/
theorem sendBundle_retry_semantics_witness :
    sendBundle 1 (fun _ => JitoOutcome.rateLimited) 3 = (Except.ok none, 3) ∧
    sendBundle 1 (fun _ => JitoOutcome.ok "B1") 3 = (Except.ok (some "B1"), 1) := by
  have h := sendBundle_retry_semantics 1 (fun _ => JitoOutcome.rateLimited)
    (by norm_num) (by norm_num)
  have h2 := sendBundle_retry_semantics 1 (fun _ => JitoOutcome.ok "B1")
    (by norm_num) (by norm_num)
  exact ⟨h.2.2.2.1 (by simp) (by simp) rfl, h2.1 "B1" rfl⟩

/-! ### C10 -/

theorem pollAux_allFail (bundleId : Option String) (i fuel : Nat) :
    pollAux bundleId (fun _ => none) i fuel = ⟨bundleId, BStatus.timeout, some "轮询超时"⟩ := by
  induction fuel generalizing i with
  | zero => rfl
  | succ fuel ih => exact ih (i + 1)

/-- C10: when every `sendBundle` attempt is rate-limited, `sendAndConfirmBundle`
takes no fallback path: it feeds the `null` sentinel straight into
`pollBundleStatus` as the bundle id, whose null branch is thus reachable — for
instance, with every poll query failing, the returned status carries the null
uuid. -/
theorem sendAndConfirmBundle_no_fallback (n : Nat) (f : Nat → JitoOutcome)
    (resp : Nat → PollResp) (fuel : Nat) (hn : 0 < n) (h5 : n ≤ 5)
    (hrl : ∀ i, i < 3 → f i = JitoOutcome.rateLimited) :
    sendAndConfirmBundle n f resp fuel = Except.ok (pollBundleStatus none resp fuel) ∧
    pollBundleStatus none (fun _ => none) fuel
      = ⟨none, BStatus.timeout, some "轮询超时"⟩ := by
  constructor
  · unfold sendAndConfirmBundle
    rw [sendBundle_allRL n f hn h5 hrl]
  · exact pollAux_allFail none 0 fuel

/-- Witness for C10 at concrete inputs. -/
theorem sendAndConfirmBundle_no_fallback_witness :
    sendAndConfirmBundle 1 (fun _ => JitoOutcome.rateLimited) (fun _ => none) 4
      = Except.ok ⟨none, BStatus.timeout, some "轮询超时"⟩ := by
  have h := sendAndConfirmBundle_no_fallback 1 (fun _ => JitoOutcome.rateLimited)
    (fun _ => none) 4 (by norm_num) (by norm_num) (fun i _ => rfl)
  rw [h.1, h.2]

/-! ### C8 -/

/-- `nonTerminal r` holds for the per-iteration observations that keep
`confirmTransaction` polling. -/
def nonTerminal (r : ConfResp) : Prop :=
  r = ConfResp.netErr ∨ r = ConfResp.noStatus ∨ r = ConfResp.pendingOk

theorem confirmLoop_execErr (resp : Nat → ConfResp) (e : String) :
    ∀ (fuel i j : Nat) (b : Bool), i ≤ j → j < i + fuel → resp j = ConfResp.execErr e →
    (∀ t, i ≤ t → t < j → nonTerminal (resp t)) →
    confirmLoop resp i fuel b = (⟨false, some (execFailMsg e)⟩, j + 1) := by
  intro fuel
  induction fuel with
  | zero => intro i j b hij hlt _ _; omega
  | succ fuel ih =>
    intro i j b hij hlt hj hpre
    by_cases hji : j = i
    · subst hji
      unfold confirmLoop
      rw [hj]
    · have hlt' : i < j := lt_of_le_of_ne hij (fun h => hji h.symm)
      have hnt : nonTerminal (resp i) := hpre i le_rfl hlt'
      unfold confirmLoop
      rcases hnt with h | h | h <;> rw [h] <;>
        exact ih (i + 1) j _ (by omega) (by omega) hj
          (fun t ht1 ht2 => hpre t (by omega) ht2)

theorem confirmLoop_timeout (resp : Nat → ConfResp) :
    ∀ (fuel i : Nat) (b : Bool), (∀ t, i ≤ t → t < i + fuel → nonTerminal (resp t)) →
    (confirmLoop resp i fuel b).1.confirmed = false ∧
    ((confirmLoop resp i fuel b).1.error = some timeoutPendingMsg ∨
     (confirmLoop resp i fuel b).1.error = some timeoutDroppedMsg) := by
  intro fuel
  induction fuel with
  | zero =>
    intro i b _
    unfold confirmLoop
    rcases b with _ | _ <;> simp
  | succ fuel ih =>
    intro i b hnt
    have h0 : nonTerminal (resp i) := hnt i le_rfl (by omega)
    unfold confirmLoop
    rcases h0 with h | h | h <;> rw [h] <;>
      exact ih (i + 1) _ (fun t ht1 ht2 => hnt t (by omega) (by omega))

/-- C8: `confirmTransaction` reports an observed on-chain execution error
immediately — the poll loop stops at that iteration — while a timeout with no
error ever observed reports `confirmed := false` with one of the two
"unknown/likely pending" messages, neither of which can coincide with the
`链上执行失败:`-prefixed message of a confirmed on-chain failure. -/
theorem confirm_error_immediate_timeout_distinct (resp : Nat → ConfResp) (fuel j : Nat)
    (e : String) :
    (j < fuel → resp j = ConfResp.execErr e → (∀ t, t < j → nonTerminal (resp t)) →
      confirmTransaction resp fuel = (⟨false, some (execFailMsg e)⟩, j + 1)) ∧
    ((∀ t, t < fuel → nonTerminal (resp t)) →
      (confirmTransaction resp fuel).1.confirmed = false ∧
      ((confirmTransaction resp fuel).1.error = some timeoutPendingMsg ∨
       (confirmTransaction resp fuel).1.error = some timeoutDroppedMsg)) ∧
    (∀ e', execFailMsg e' ≠ timeoutPendingMsg ∧ execFailMsg e' ≠ timeoutDroppedMsg) := by
  refine ⟨?_, ?_, ?_⟩
  · intro hlt hj hpre
    exact confirmLoop_execErr resp e fuel 0 j false (by omega) (by omega) hj
      (fun t _ ht => hpre t ht)
  · intro hnt
    exact confirmLoop_timeout resp fuel 0 false (fun t _ ht => hnt t (by omega))
  · intro e'
    constructor <;>
      · intro h
        have := congrArg String.data h
        rw [execFailMsg, String.data_append] at this
        simp [timeoutPendingMsg, timeoutDroppedMsg] at this

/-- Witness for C8: an execution error observed at the third poll is returned
at once (3 iterations), and an all-pending run times out with the
likely-pending message. -/
theorem confirm_error_immediate_timeout_distinct_witness :
    confirmTransaction (fun i => if i = 2 then ConfResp.execErr "custom:6001"
        else ConfResp.pendingOk) 10
      = (⟨false, some (execFailMsg "custom:6001")⟩, 3) ∧
    (confirmTransaction (fun _ => ConfResp.pendingOk) 10).1.confirmed = false := by
  constructor
  · have h := confirm_error_immediate_timeout_distinct
      (fun i => if i = 2 then ConfResp.execErr "custom:6001" else ConfResp.pendingOk) 10 2
      "custom:6001"
    exact h.1 (by norm_num) (by norm_num) (fun t ht => by
      interval_cases t <;> simp [nonTerminal])
  · have h := confirm_error_immediate_timeout_distinct
      (fun _ => ConfResp.pendingOk) 10 0 ""
    exact (h.2.1 (fun t _ => by simp [nonTerminal])).1

end SolSniper
